import Mathlib

/-!
Verification development for the DWSim-Agent repository.

The iterative design-evaluate-feedback loop of `src/agent/process_designer.py`
is embedded shallowly: Python floats become rationals (`ℚ`), Python dicts
become typed structures or association lists, raised exceptions become
`Except PyError` values, and the stateful iteration loop becomes a fuel-based
state-transition function over an explicit `RunState`.

External collaborators (the OpenAI client, the DWSIM process, the filesystem)
are abstracted as environment parameters supplying the outcome of each
collaborator interaction, matching the specification, which treats them as
black boxes.
-/

namespace DWSimAgent

/-- Python exception values relevant to the embedded code paths. -/
inductive PyError where
  | typeError (msg : String)
  | nameError (msg : String)
  | fileNotFoundError (msg : String)
  | runtimeError (msg : String)
  | externalError (msg : String)
deriving Repr, DecidableEq

/-- The `constraint_results` dictionary consumed by
`ProcessDesignerAgent._generate_feedback` and `_calculate_design_score`
(keys `mass_balance_satisfied`, `mass_balance_error`,
`energy_balance_satisfied`, `energy_balance_error`). -/
structure ConstraintResult where
  mass_balance_satisfied : Bool
  mass_balance_error : ℚ
  energy_balance_satisfied : Bool
  energy_balance_error : ℚ
deriving Repr, DecidableEq

/-- The `product_evaluation` dictionary consumed by
`ProcessDesignerAgent._generate_feedback` and `_calculate_design_score`:
`all_specifications_met`, the nested `issues` dict
(product name ↦ issue type ↦ details) and the `product_scores` dict
(product name ↦ normalized score). -/
structure ProductEvaluation where
  all_specifications_met : Bool
  issues : List (String × List (String × String))
  product_scores : List (String × ℚ)
deriving Repr, DecidableEq

/-- Shallow embedding of `ProcessDesignerAgent._calculate_design_score`
(src/agent/process_designer.py lines 466-502): start from 100, subtract a
capped mass-balance penalty when the mass balance is unsatisfied, subtract a
capped energy-balance penalty when the energy balance is unsatisfied, subtract
the equally weighted product shortfalls in a loop, and clamp at 0. -/
def calculate_design_score (constraint_results : ConstraintResult)
    (product_evaluation : ProductEvaluation) : ℚ :=
  let score : ℚ := 100
  let score :=
    if !constraint_results.mass_balance_satisfied then
      score - min 50 (|constraint_results.mass_balance_error| * 10)
    else score
  let score :=
    if !constraint_results.energy_balance_satisfied then
      score - min 50 (|constraint_results.energy_balance_error| * 5)
    else score
  let score := product_evaluation.product_scores.foldl
    (fun s ps =>
      let normalized_score := ps.2 * 100
      let num_products := product_evaluation.product_scores.length
      let product_weight : ℚ := if num_products > 0 then 1 / (num_products : ℚ) else 0
      s - (100 - normalized_score) * product_weight)
    score
  max 0 score

/-- The design-score formula exactly as the specification words it (spec §4.2):
both balance penalties are subtracted unconditionally, proportional to the
absolute error percentages, then the equally weighted product shortfalls,
then the clamp at 0.  Stated only for comparison with
`calculate_design_score`. -/
def spec_design_score (c : ConstraintResult) (p : ProductEvaluation) : ℚ :=
  let num_products := p.product_scores.length
  let product_penalty :=
    (p.product_scores.map (fun ps => (100 - ps.2 * 100) * (1 / (num_products : ℚ)))).sum
  max 0 (100 - min 50 (|c.mass_balance_error| * 10)
             - min 50 (|c.energy_balance_error| * 5) - product_penalty)

/-- The amended design-score formula: the specification formula with each
balance penalty applied only when that balance is reported unsatisfied,
which is what the source does. -/
def amended_design_score (c : ConstraintResult) (p : ProductEvaluation) : ℚ :=
  let num_products := p.product_scores.length
  let mass_penalty : ℚ :=
    if c.mass_balance_satisfied then 0 else min 50 (|c.mass_balance_error| * 10)
  let energy_penalty : ℚ :=
    if c.energy_balance_satisfied then 0 else min 50 (|c.energy_balance_error| * 5)
  let product_penalty :=
    (p.product_scores.map (fun ps => (100 - ps.2 * 100) * (1 / (num_products : ℚ)))).sum
  max 0 (100 - mass_penalty - energy_penalty - product_penalty)

/-- The `feedback` dictionary built by `ProcessDesignerAgent._generate_feedback`. -/
structure Feedback where
  status : String
  message : String
  constraint_issues : List String
  product_issues : List String
  suggestions : List String
deriving Repr, DecidableEq

/-- Shallow embedding of `ProcessDesignerAgent._generate_feedback`
(src/agent/process_designer.py lines 401-464): collect constraint issues and
suggestions for each unsatisfied balance, then per-product issues with
issue-type-keyed suggestions, then classify the overall status. -/
def generate_feedback (constraint_results : ConstraintResult)
    (product_evaluation : ProductEvaluation) : Feedback :=
  let mass_balance_satisfied := constraint_results.mass_balance_satisfied
  let energy_balance_satisfied := constraint_results.energy_balance_satisfied
  let constraint_issues :=
    (if !mass_balance_satisfied then
      ["Mass balance error: " ++ toString constraint_results.mass_balance_error ++ "%"]
     else []) ++
    (if !energy_balance_satisfied then
      ["Energy balance error: " ++ toString constraint_results.energy_balance_error ++ "%"]
     else [])
  let constraint_suggestions :=
    (if !mass_balance_satisfied then
      ["Adjust flow rates or component splits to ensure mass conservation"]
     else []) ++
    (if !energy_balance_satisfied then
      ["Review heat duties and enthalpy calculations for energy conservation"]
     else [])
  let all_products_meet_specs := product_evaluation.all_specifications_met
  let product_issues := product_evaluation.issues.flatMap
    (fun prod => prod.2.map (fun issue => prod.1 ++ ": " ++ issue.1 ++ " - " ++ issue.2))
  let product_suggestions := product_evaluation.issues.flatMap
    (fun prod => prod.2.flatMap (fun issue =>
      if issue.1 = "purity" then
        ["Improve separation for " ++ prod.1 ++ " to increase purity"]
      else if issue.1 = "yield" then
        ["Adjust reaction conditions or improve recovery for " ++ prod.1]
      else if issue.1 = "production_rate" then
        ["Increase feed rate or improve conversion for " ++ prod.1]
      else if issue.1 = "temperature" then
        ["Adjust cooling/heating for " ++ prod.1 ++ " stream"]
      else if issue.1 = "pressure" then
        ["Adjust pressure control for " ++ prod.1 ++ " stream"]
      else []))
  let status_message :=
    if mass_balance_satisfied && energy_balance_satisfied && all_products_meet_specs then
      ("success", "Process design meets all requirements and constraints!")
    else if !(mass_balance_satisfied && energy_balance_satisfied) then
      ("constraint_violation", "Process design violates fundamental constraints")
    else
      ("product_specs_not_met", "Process design does not meet all product specifications")
  { status := status_message.1
    message := status_message.2
    constraint_issues := constraint_issues
    product_issues := product_issues
    suggestions := constraint_suggestions ++ product_suggestions }

/-- Outcome of the collaborator calls of one iteration of
`ProcessDesignerAgent.run`.  The design generation step never raises (both
`_generate_process_design` and `OpenAIModelManager.generate_process_design`
catch every exception and degrade to a dictionary), so an iteration either
fails while converting the design to a DWSIM model, fails while running the
simulation, or reaches evaluation.  In the last case the outcome carries the
`constraint_results` and `product_evaluation` dictionaries; the evaluator
producing them (`check_constraints` / `analyze_results`) is called at
src/agent/process_designer.py lines 171-172 but is absent from the source
tree, so its output is supplied by the environment, per the specification
contract for the Evaluator. -/
inductive IterOutcome where
  | convError (msg : String)
  | simError (msg : String)
  | evaluated (constraint_results : ConstraintResult)
      (product_evaluation : ProductEvaluation)
deriving Repr, DecidableEq

/-- The `best_design` dictionary stored by `ProcessDesignerAgent.run`
(lines 192-198): iteration number, the evaluation that produced the score,
and the score.  The process design and simulation results it also stores are
opaque payloads not needed by any claim. -/
structure BestDesign where
  iteration : Nat
  constraint_check : ConstraintResult
  product_evaluation : ProductEvaluation
  score : ℚ
deriving Repr, DecidableEq

/-- One entry of `self.history`, appended by
`ProcessDesignerAgent._record_iteration_results` (lines 526-536): iteration
number, the feedback, and whether simulation results were present (the
`simulation_results_path` key is only set when `simulation_results` is
truthy). -/
structure IterationRecord where
  iteration : Nat
  feedback : Feedback
  has_simulation_results : Bool
deriving Repr, DecidableEq

/-- The per-run mutable fields of `ProcessDesignerAgent`
(`current_iteration`, `best_score`, `best_design`, `history`).
`best_score` starts at `-float(inf)`, embedded as `none`. -/
structure RunState where
  current_iteration : Nat
  best_score : Option ℚ
  best_design : Option BestDesign
  history : List IterationRecord
deriving Repr, DecidableEq

/-- Initial run state set by `ProcessDesignerAgent.__init__` (lines 84-88). -/
def initial_state : RunState :=
  { current_iteration := 0, best_score := none, best_design := none, history := [] }

/-- The feedback dictionary built in the `except` branch of the conversion
step (src/agent/process_designer.py lines 143-148).  The dictionary carries
no `constraint_issues` / `product_issues` keys, embedded as empty lists. -/
def conversion_error_feedback (msg : String) : Feedback :=
  { status := "error"
    message := "Failed to convert design to DWSIM model: " ++ msg
    constraint_issues := []
    product_issues := []
    suggestions := ["Ensure all units and connections are properly specified",
                    "Check for invalid operation parameters"] }

/-- The feedback dictionary built in the `except` branch of the simulation
step (src/agent/process_designer.py lines 161-166). -/
def simulation_error_feedback (msg : String) : Feedback :=
  { status := "error"
    message := "Simulation failed: " ++ msg
    constraint_issues := []
    product_issues := []
    suggestions := ["Check for invalid input parameters",
                    "Ensure thermodynamic property package is appropriate for components"] }

/-- Shallow embedding of `ProcessDesignerAgent._record_iteration_results`
(lines 504-541): append exactly one record to `self.history`; file writes are
side effects outside the state. -/
def record_iteration_results (s : RunState) (feedback : Feedback)
    (has_simulation_results : Bool) : RunState :=
  { s with history := s.history ++
      [{ iteration := s.current_iteration
         feedback := feedback
         has_simulation_results := has_simulation_results }] }

/-- The comparison `current_score > self.best_score` at
src/agent/process_designer.py line 190, where `best_score` starts at
`-float(inf)` (`none`): every score exceeds the initial value. -/
def gt_best_score (current_score : ℚ) (best_score : Option ℚ) : Bool :=
  match best_score with
  | none => true
  | some b => current_score > b

/-- One iteration body of `ProcessDesignerAgent.run` after the design was
generated (lines 136-208), driven by the collaborator outcome: a conversion
or simulation failure short-circuits to recording with the error feedback and
no simulation results; otherwise feedback is generated, the score computed,
the best design updated on a strictly higher score, the iteration recorded,
and the returned flag says whether `feedback["status"] == "success"` stops
the run. -/
def process_iteration (s : RunState) (outcome : IterOutcome) : RunState × Bool :=
  match outcome with
  | .convError msg =>
      (record_iteration_results s (conversion_error_feedback msg) false, false)
  | .simError msg =>
      (record_iteration_results s (simulation_error_feedback msg) false, false)
  | .evaluated constraint_results product_evaluation =>
      let feedback := generate_feedback constraint_results product_evaluation
      let current_score := calculate_design_score constraint_results product_evaluation
      let s :=
        if gt_best_score current_score s.best_score then
          { s with best_score := some current_score
                   best_design := some { iteration := s.current_iteration
                                         constraint_check := constraint_results
                                         product_evaluation := product_evaluation
                                         score := current_score } }
        else s
      let s := record_iteration_results s feedback true
      (s, feedback.status == "success")

/-- The `while self.current_iteration < self.max_iterations` loop of
`ProcessDesignerAgent.run` (lines 119-208), with the remaining budget as
fuel: increment the iteration counter, run the iteration body on the
environment-supplied outcome for that iteration, stop on success, otherwise
continue.  Returns the final state and whether a successful design was
found. -/
def run_loop (env : Nat → IterOutcome) : Nat → RunState → RunState × Bool
  | 0, s => (s, false)
  | fuel + 1, s =>
      let s1 := { s with current_iteration := s.current_iteration + 1 }
      let step := process_iteration s1 (env s1.current_iteration)
      if step.2 then (step.1, true) else run_loop env fuel step.1

/-- The summary report assembled by
`ProcessDesignerAgent._generate_final_report` (lines 543-592), reduced to the
fields the claims mention. -/
structure FinalReport where
  total_iterations : Nat
  best_iteration : Nat
  best_score : ℚ
deriving Repr, DecidableEq

/-- Shallow embedding of `ProcessDesignerAgent._generate_final_report`
(lines 543-547): when `self.best_design` is falsy the method logs a warning
and returns without a report (`none`); otherwise it assembles the report. -/
def generate_final_report (current_iteration : Nat)
    (best_design : Option BestDesign) : Option FinalReport :=
  match best_design with
  | none => none
  | some b =>
      some { total_iterations := current_iteration
             best_iteration := b.iteration
             best_score := b.score }

/-- Shallow embedding of `ProcessDesignerAgent.run` (lines 109-214) end to
end.  On success the method reports and returns `True`.  When the budget is
exhausted, line 212 formats `self.best_design['iteration']` into a log
message before `_generate_final_report` is called; if `best_design` is still
`None`, subscripting `None` raises `TypeError` and the whole run fails. -/
def run (env : Nat → IterOutcome) (max_iterations : Nat) :
    Except PyError (Bool × RunState) :=
  let result := run_loop env max_iterations initial_state
  if result.2 then .ok (true, result.1)
  else
    match result.1.best_design with
    | none => .error (.typeError "NoneType object is not subscriptable")
    | some _ => .ok (false, result.1)

/-- Whether an iteration outcome makes `ProcessDesignerAgent.run` stop with
success: the iteration reached evaluation and its generated feedback has
status `success`. -/
def outcome_succeeds : IterOutcome → Bool
  | .evaluated c p => (generate_feedback c p).status == "success"
  | _ => false

/-- Whether an iteration outcome is a conversion or simulation failure. -/
def IterOutcome.is_error : IterOutcome → Bool
  | .convError _ => true
  | .simError _ => true
  | .evaluated _ _ => false

/-- The pairs (iteration number, design score) of the iterations that reach
evaluation during a run of `run_loop env fuel` started with
`current_iteration = start`, cut off after an iteration whose feedback status
is `success` (the loop stops there). -/
def scored_iterations (env : Nat → IterOutcome) : Nat → Nat → List (Nat × ℚ)
  | _, 0 => []
  | start, fuel + 1 =>
      match env (start + 1) with
      | .convError _ => scored_iterations env (start + 1) fuel
      | .simError _ => scored_iterations env (start + 1) fuel
      | .evaluated c p =>
          (start + 1, calculate_design_score c p) ::
          (if (generate_feedback c p).status == "success" then []
           else scored_iterations env (start + 1) fuel)

/-- Projection of the tracked best design to (iteration number, score). -/
def best_pair (s : RunState) : Option (Nat × ℚ) :=
  s.best_design.map (fun b => (b.iteration, b.score))

/-- The best-design update of lines 190-198 on (iteration, score) pairs. -/
def update_best (best : Option (Nat × ℚ)) (entry : Nat × ℚ) : Option (Nat × ℚ) :=
  if gt_best_score entry.2 (best.map (fun b => b.2)) then some entry else best

/-- Order on `best_score` values with `none` playing `-float(inf)`. -/
def score_le : Option ℚ → Option ℚ → Prop
  | none, _ => True
  | some _, none => False
  | some a, some b => a ≤ b

/-- Consistency between the tracked `best_score` and `best_design`:
both are set together by lines 190-198. -/
def coherent (s : RunState) : Prop :=
  s.best_score = s.best_design.map (fun b => b.score)

/-- What it means for an optional (iteration, score) pair to be the best of a
list of such pairs: it belongs to the list, its score is the maximum, and no
earlier iteration of the list achieves that maximum. -/
def is_best_of (entries : List (Nat × ℚ)) : Option (Nat × ℚ) → Prop
  | none => entries = []
  | some best =>
      best ∈ entries ∧ (∀ e ∈ entries, e.2 ≤ best.2) ∧
        (∀ e ∈ entries, e.2 = best.2 → best.1 ≤ e.1)

section ConstraintCheckerEmbedding

/-- Mass-balance error computation generated into the DWSIM automation script
by `DWSIMSimulator._get_dwsim_automation_script`
(src/dwsim/simulator.py lines 220-238): `mass_balance_error` starts at 100.0
and is replaced by the percentage formula only when the total input mass is
positive. -/
def compute_mass_balance_error (total_input_mass total_output_mass : ℚ) : ℚ :=
  if total_input_mass > 0 then
    |total_input_mass - total_output_mass| / total_input_mass * 100
  else 100

/-- Modelled from the spec: `ConstraintChecker.check_constraints` is invoked
at src/agent/process_designer.py line 171 but no such method exists anywhere
in the source tree (src/evaluation/constraint_checker.py defines only
design-level checks).  Following spec §4.1, the mass-balance verdict compares
the percentage error of the simulation result against the configured
tolerance, and zero input mass is treated as unsatisfied with error 100. -/
def check_constraints_mass (mass_balance_tolerance : ℚ)
    (total_input_mass total_output_mass : ℚ) : Bool × ℚ :=
  let error := compute_mass_balance_error total_input_mass total_output_mass
  if total_input_mass > 0 then (decide (error ≤ mass_balance_tolerance), error)
  else (false, 100)

end ConstraintCheckerEmbedding

section ResultsAnalyzerEmbedding

/-- Python `dict.get(key, default)` on a string-keyed association list of
rationals. -/
def dict_get (d : List (String × ℚ)) (key : String) (default : ℚ) : ℚ :=
  match d.find? (fun e => e.1 == key) with
  | some e => e.2
  | none => default

/-- Python `dict.get(key, {})` on the outer composition dictionary. -/
def dict_get_comp (d : List (String × List (String × ℚ))) (key : String) :
    List (String × ℚ) :=
  match d.find? (fun e => e.1 == key) with
  | some e => e.2
  | none => []

/-- The `results` dictionary of `ResultsAnalyzer.compare_to_targets`:
stream id ↦ component name ↦ mole fraction, as produced by
`analyze_simulation_results` (which always sets `product_compositions`). -/
structure AnalyzedResults where
  product_compositions : List (String × List (String × ℚ))
deriving Repr, DecidableEq

/-- The `targets` dictionary of `ResultsAnalyzer.compare_to_targets`. -/
structure Targets where
  product_compositions : List (String × List (String × ℚ))
deriving Repr, DecidableEq

/-- Inner loop of `ResultsAnalyzer.compare_to_targets`
(src/evaluation/results_analyzer.py lines 65-68): the first component whose
actual value differs from its target by more than the 1% tolerance returns
`False` early (`some false`); `none` means the loop fell through. -/
def compare_components (actual_comp : List (String × ℚ)) :
    List (String × ℚ) → Option Bool
  | [] => none
  | cv :: rest =>
      if |dict_get actual_comp cv.1 0 - cv.2| > 1 / 100 then some false
      else compare_components actual_comp rest

/-- Outer loop of `ResultsAnalyzer.compare_to_targets` (lines 63-68) over the
targeted streams. -/
def compare_streams (results : AnalyzedResults) :
    List (String × List (String × ℚ)) → Option Bool
  | [] => none
  | sc :: rest =>
      match compare_components (dict_get_comp results.product_compositions sc.1) sc.2 with
      | some b => some b
      | none => compare_streams results rest

/-- Shallow embedding of `ResultsAnalyzer.compare_to_targets`
(src/evaluation/results_analyzer.py lines 52-69): when no early return fires,
the final statement `return Truex` evaluates the undefined name `Truex` and
raises `NameError`. -/
def compare_to_targets (results : AnalyzedResults) (targets : Targets) :
    Except PyError Bool :=
  match compare_streams results targets.product_compositions with
  | some b => .ok b
  | none => .error (.nameError "name Truex is not defined")

end ResultsAnalyzerEmbedding

section AgentInitEmbedding

/-- The `config["evaluation"]` section read by `ProcessDesignerAgent.__init__`. -/
structure EvaluationConfig where
  mass_balance_tolerance : ℚ
  energy_balance_tolerance : ℚ
  purity_tolerance : ℚ
  yield_tolerance : ℚ
deriving Repr, DecidableEq

/-- The `config["agent"]` section read by `ProcessDesignerAgent.__init__`. -/
structure AgentConfig where
  model : String
  temperature : ℚ
  system_message : String
  max_iterations : Nat
deriving Repr, DecidableEq

/-- The `config["openai"]` section read by `ProcessDesignerAgent.__init__`. -/
structure OpenAIConfig where
  api_key : String
  organization : String
deriving Repr, DecidableEq

/-- The `config["dwsim"]` section read by `ProcessDesignerAgent.__init__`. -/
structure DwsimConfig where
  install_path : String
  property_package : String
  calculation_mode : String
  timeout : Nat
deriving Repr, DecidableEq

/-- The configuration dictionary with the keys `ProcessDesignerAgent.__init__`
reads. -/
structure Config where
  agent : AgentConfig
  openai : OpenAIConfig
  dwsim : DwsimConfig
  evaluation : EvaluationConfig
deriving Repr, DecidableEq

/-- Outcomes of the external interactions performed while constructing the
agent: `OpenAI(**client_kwargs)` inside `OpenAIModelManager.__init__`
(re-raised on failure) and `DWSIMSimulator._validate_dwsim_installation`
(filesystem and mono checks).  Directory creation is assumed to succeed. -/
structure InitEnv where
  openai_client : Except PyError Unit
  dwsim_validation : Except PyError Unit
deriving Repr

/-- Calling the `ConstraintChecker` class
(src/evaluation/constraint_checker.py lines 12-14): its `__init__` takes only
`self`, so a call with any keyword argument raises `TypeError` naming the
first unexpected keyword. -/
def constraint_checker_call (kwargs : List String) : Except PyError Unit :=
  match kwargs with
  | [] => .ok ()
  | k :: _ =>
      .error (.typeError
        ("ConstraintChecker.__init__ got an unexpected keyword argument " ++ k))

/-- Calling the `ResultsAnalyzer` class
(src/evaluation/results_analyzer.py lines 13-15): its `__init__` takes only
`self`, so a call with any keyword argument raises `TypeError`. -/
def results_analyzer_call (kwargs : List String) : Except PyError Unit :=
  match kwargs with
  | [] => .ok ()
  | k :: _ =>
      .error (.typeError
        ("ResultsAnalyzer.__init__ got an unexpected keyword argument " ++ k))

/-- Shallow embedding of `ProcessDesignerAgent.__init__`
(src/agent/process_designer.py lines 26-91) as the sequence of fallible
steps it performs: construct the OpenAI model manager, the DWSIM simulator
(with installation validation), the model converter (cannot fail), then call
`ConstraintChecker` with the keyword arguments `mass_balance_tolerance` and
`energy_balance_tolerance` (line 72-75) and `ResultsAnalyzer` with
`product_specs`, `purity_tolerance` and `yield_tolerance` (lines 77-81).
The run-state initialization and `_save_input_data` follow these calls. -/
def process_designer_agent_init (_config : Config) (env : InitEnv) :
    Except PyError RunState := do
  let _ ← env.openai_client
  let _ ← env.dwsim_validation
  let _ ← constraint_checker_call ["mass_balance_tolerance", "energy_balance_tolerance"]
  let _ ← results_analyzer_call ["product_specs", "purity_tolerance", "yield_tolerance"]
  pure initial_state

end AgentInitEmbedding

/-! Helper lemmas shared between the claim theorems. -/

theorem foldl_sub_map_sum {α : Type} (g : α → ℚ) (l : List α) (init : ℚ) :
    l.foldl (fun s a => s - g a) init = init - (l.map g).sum := by
  induction l generalizing init with
  | nil => simp
  | cons hd tl ih => simp [ih, sub_sub]

/-- The source score and the amended closed-form score agree on every input. -/
theorem score_eq_amended (c : ConstraintResult) (p : ProductEvaluation) :
    calculate_design_score c p = amended_design_score c p := by
  rcases p with ⟨am, iss, scores⟩
  unfold calculate_design_score amended_design_score
  dsimp only
  rcases scores with _ | ⟨hd, tl⟩
  · cases hm : c.mass_balance_satisfied <;>
      cases he : c.energy_balance_satisfied <;> simp [hm, he]
  · rw [foldl_sub_map_sum
      (fun ps : String × ℚ => (100 - ps.2 * 100) *
        (if (hd :: tl).length > 0 then 1 / (((hd :: tl).length : ℚ)) else 0))]
    cases hm : c.mass_balance_satisfied <;>
      cases he : c.energy_balance_satisfied <;> simp [hm, he]

/-! Theorems for the claims, in claim order. -/

/-- C1: for every configuration and every environment, constructing
`ProcessDesignerAgent` never succeeds, and whenever the external collaborator
initializations (OpenAI client, DWSIM installation validation) succeed, the
construction raises `TypeError` at the `ConstraintChecker` call, because
`ConstraintChecker.__init__` accepts no argument besides `self` while it is
called with the keyword arguments `mass_balance_tolerance` and
`energy_balance_tolerance`. -/
theorem process_designer_agent_init_type_error (config : Config) (env : InitEnv) :
    (process_designer_agent_init config env).isOk = false ∧
    (env.openai_client = .ok () → env.dwsim_validation = .ok () →
      process_designer_agent_init config env =
        .error (.typeError
          "ConstraintChecker.__init__ got an unexpected keyword argument mass_balance_tolerance")) := by
  rcases env with ⟨oc, dv⟩
  constructor
  · rcases oc with e | u
    · rfl
    · cases u
      rcases dv with e | u
      · rfl
      · cases u; rfl
  · intro h1 h2
    simp only at h1 h2
    subst h1; subst h2
    rfl

/-- Witness for C1: a concrete configuration and a successful collaborator
environment on which construction raises the `TypeError`. -/
theorem process_designer_agent_init_type_error_witness :
    process_designer_agent_init
      { agent := { model := "gpt-4o", temperature := 1/5, system_message := "",
                   max_iterations := 10 }
        openai := { api_key := "key", organization := "" }
        dwsim := { install_path := "/opt/dwsim", property_package := "NRTL",
                   calculation_mode := "Sequential", timeout := 300 }
        evaluation := { mass_balance_tolerance := 1, energy_balance_tolerance := 5,
                        purity_tolerance := 1/100, yield_tolerance := 1/20 } }
      { openai_client := .ok (), dwsim_validation := .ok () } =
      .error (.typeError
        "ConstraintChecker.__init__ got an unexpected keyword argument mass_balance_tolerance") :=
  (process_designer_agent_init_type_error _ _).2 rfl rfl

/-- C7: for every tolerance and total input/output mass, the modelled
mass-balance check is satisfied iff the relative error percentage is at most
the tolerance when the input mass is positive, and zero input mass yields an
unsatisfied verdict with error 100. -/
theorem mass_balance_check_spec (tol tin tout : ℚ) :
    (tin > 0 →
      (((check_constraints_mass tol tin tout).1 = true ↔
          |tin - tout| / tin * 100 ≤ tol) ∧
        (check_constraints_mass tol tin tout).2 = |tin - tout| / tin * 100)) ∧
    (tin = 0 → check_constraints_mass tol tin tout = (false, 100)) := by
  constructor
  · intro h
    simp [check_constraints_mass, compute_mass_balance_error, h]
  · intro h
    subst h
    simp [check_constraints_mass, compute_mass_balance_error]

/-- Witness for C7: mass in = 100 and mass out = 100 is satisfied at a 1%
tolerance, and zero input mass yields (false, 100). -/
theorem mass_balance_check_spec_witness :
    (check_constraints_mass 1 100 100).1 = true ∧
    check_constraints_mass 1 0 5 = (false, 100) :=
  ⟨((mass_balance_check_spec 1 100 100).1 (by norm_num)).1.mpr (by norm_num),
   (mass_balance_check_spec 1 0 5).2 rfl⟩

/-- Counterexample for C3: on a constraint result whose mass balance is
reported satisfied with a nonzero recorded error percentage, the source
subtracts no mass-balance penalty, while the claimed formula subtracts
min(50, 100) = 50 unconditionally. -/
theorem design_score_spec_formula_counterexample :
    calculate_design_score
        { mass_balance_satisfied := true, mass_balance_error := 10,
          energy_balance_satisfied := true, energy_balance_error := 0 }
        { all_specifications_met := true, issues := [], product_scores := [] } = 100 ∧
    spec_design_score
        { mass_balance_satisfied := true, mass_balance_error := 10,
          energy_balance_satisfied := true, energy_balance_error := 0 }
        { all_specifications_met := true, issues := [], product_scores := [] } = 50 ∧
    calculate_design_score
        { mass_balance_satisfied := true, mass_balance_error := 10,
          energy_balance_satisfied := true, energy_balance_error := 0 }
        { all_specifications_met := true, issues := [], product_scores := [] } ≠
      spec_design_score
        { mass_balance_satisfied := true, mass_balance_error := 10,
          energy_balance_satisfied := true, energy_balance_error := 0 }
        { all_specifications_met := true, issues := [], product_scores := [] } := by
  refine ⟨?_, ?_, ?_⟩ <;>
    norm_num [calculate_design_score, spec_design_score, abs, max_def, min_def]

/-- C3 (amended): the design score follows the claimed formula with each
balance penalty applied only when the corresponding balance is unsatisfied:
start at 100, subtract min(50, |mass error| × 10) when the mass balance is
unsatisfied, subtract min(50, |energy error| × 5) when the energy balance is
unsatisfied, subtract (100 − normalized×100) × (1/num products) per product,
clamp at ≥ 0.  In particular an unsatisfied mass balance with error 10 gives
penalty min(50, 100) = 50. -/
theorem design_score_amended (c : ConstraintResult) (p : ProductEvaluation) :
    calculate_design_score c p = amended_design_score c p ∧
    amended_design_score
        { mass_balance_satisfied := false, mass_balance_error := 10,
          energy_balance_satisfied := true, energy_balance_error := 0 }
        { all_specifications_met := true, issues := [], product_scores := [] } = 50 :=
  ⟨score_eq_amended c p,
   by norm_num [amended_design_score, abs, max_def, min_def]⟩

/-- C8: on every constraint result and every product evaluation whose
normalized product scores lie in [0, 1] (the range the data model gives
them), the design score lies in [0, 100], and the scoring function is
deterministic: identical inputs produce identical outputs. -/
theorem design_score_bounds (c : ConstraintResult) (p : ProductEvaluation)
    (h : ∀ e ∈ p.product_scores, 0 ≤ e.2 ∧ e.2 ≤ 1) :
    0 ≤ calculate_design_score c p ∧ calculate_design_score c p ≤ 100 ∧
    ∀ c2 p2, c2 = c → p2 = p →
      calculate_design_score c2 p2 = calculate_design_score c p := by
  refine ⟨?_, ?_, ?_⟩
  · rw [score_eq_amended]
    exact le_max_left _ _
  · rw [score_eq_amended]
    unfold amended_design_score
    dsimp only
    apply max_le (by norm_num)
    have hmass : (0:ℚ) ≤
        if c.mass_balance_satisfied then 0 else min 50 (|c.mass_balance_error| * 10) := by
      split
      · exact le_rfl
      · exact le_min (by norm_num) (by positivity)
    have henergy : (0:ℚ) ≤
        if c.energy_balance_satisfied then 0 else min 50 (|c.energy_balance_error| * 5) := by
      split
      · exact le_rfl
      · exact le_min (by norm_num) (by positivity)
    have hprod : (0:ℚ) ≤ (p.product_scores.map
        (fun ps => (100 - ps.2 * 100) * (1 / ((p.product_scores.length : ℚ))))).sum := by
      apply List.sum_nonneg
      intro a ha
      simp only [List.mem_map] at ha
      obtain ⟨ps, hps, rfl⟩ := ha
      have hb := h ps hps
      apply mul_nonneg (by linarith) (by positivity)
    linarith
  · intro c2 p2 hc hp
    subst hc; subst hp; rfl

/-- Witness for C8 at a concrete evaluation with one product score 1/2. -/
theorem design_score_bounds_witness :
    0 ≤ calculate_design_score
          { mass_balance_satisfied := false, mass_balance_error := 3,
            energy_balance_satisfied := true, energy_balance_error := 0 }
          { all_specifications_met := false, issues := [],
            product_scores := [("ethanol", 1/2)] } ∧
    calculate_design_score
          { mass_balance_satisfied := false, mass_balance_error := 3,
            energy_balance_satisfied := true, energy_balance_error := 0 }
          { all_specifications_met := false, issues := [],
            product_scores := [("ethanol", 1/2)] } ≤ 100 :=
  ⟨(design_score_bounds _ _ (by norm_num)).1,
   (design_score_bounds _ _ (by norm_num)).2.1⟩

/-- C4: the feedback status is `success` iff both balances are satisfied and
all product specifications are met; any unsatisfied balance yields
`constraint_violation` (taking precedence over unmet product
specifications); satisfied balances with unmet specifications yield
`product_specs_not_met`. -/
theorem feedback_status_priority (c : ConstraintResult) (p : ProductEvaluation) :
    ((generate_feedback c p).status = "success" ↔
      (c.mass_balance_satisfied = true ∧ c.energy_balance_satisfied = true ∧
        p.all_specifications_met = true)) ∧
    (¬(c.mass_balance_satisfied = true ∧ c.energy_balance_satisfied = true) →
      (generate_feedback c p).status = "constraint_violation") ∧
    (c.mass_balance_satisfied = true → c.energy_balance_satisfied = true →
      p.all_specifications_met = false →
      (generate_feedback c p).status = "product_specs_not_met") := by
  rcases c with ⟨mb, mbe, eb, ebe⟩
  rcases p with ⟨am, iss, scores⟩
  cases mb <;> cases eb <;> cases am <;> simp [generate_feedback]

/-- Witness for C4: an unsatisfied mass balance with unmet product
specifications yields status `constraint_violation`. -/
theorem feedback_status_priority_witness :
    (generate_feedback
        { mass_balance_satisfied := false, mass_balance_error := 10,
          energy_balance_satisfied := true, energy_balance_error := 0 }
        { all_specifications_met := false, issues := [], product_scores := [] }).status =
      "constraint_violation" :=
  (feedback_status_priority _ _).2.1 (by simp)

theorem compare_components_eq_some (actual : List (String × ℚ)) :
    ∀ (l : List (String × ℚ)) (b : Bool),
      compare_components actual l = some b → b = false := by
  intro l
  induction l with
  | nil => intro b h; simp [compare_components] at h
  | cons cv rest ih =>
      intro b h
      unfold compare_components at h
      split at h
      · simpa using h.symm
      · exact ih b h

theorem compare_components_eq_none (actual : List (String × ℚ))
    (l : List (String × ℚ)) :
    compare_components actual l = none ↔
      ∀ cv ∈ l, |dict_get actual cv.1 0 - cv.2| ≤ 1/100 := by
  induction l with
  | nil => simp [compare_components]
  | cons cv rest ih =>
      unfold compare_components
      by_cases hc : |dict_get actual cv.1 0 - cv.2| > 1/100
      · simp only [if_pos hc]
        simp only [List.mem_cons]
        constructor
        · intro h; exact absurd h (by simp)
        · intro h
          exact absurd (h cv (Or.inl rfl)) (not_le.mpr hc)
      · simp only [if_neg hc, ih, List.mem_cons]
        constructor
        · intro h cv2 hcv2
          rcases hcv2 with rfl | hcv2
          · exact not_lt.mp hc
          · exact h cv2 hcv2
        · intro h cv2 hcv2
          exact h cv2 (Or.inr hcv2)

theorem compare_streams_eq_some (results : AnalyzedResults) :
    ∀ (l : List (String × List (String × ℚ))) (b : Bool),
      compare_streams results l = some b → b = false := by
  intro l
  induction l with
  | nil => intro b h; simp [compare_streams] at h
  | cons sc rest ih =>
      intro b h
      unfold compare_streams at h
      cases hc : compare_components
          (dict_get_comp results.product_compositions sc.1) sc.2 with
      | some b2 =>
          rw [hc] at h
          simp only [Option.some.injEq] at h
          subst h
          exact compare_components_eq_some _ _ _ hc
      | none =>
          rw [hc] at h
          exact ih b h

theorem compare_streams_eq_none (results : AnalyzedResults)
    (l : List (String × List (String × ℚ))) :
    compare_streams results l = none ↔
      ∀ sc ∈ l, ∀ cv ∈ sc.2,
        |dict_get (dict_get_comp results.product_compositions sc.1) cv.1 0 - cv.2| ≤
          1/100 := by
  induction l with
  | nil => simp [compare_streams]
  | cons sc rest ih =>
      unfold compare_streams
      cases hc : compare_components
          (dict_get_comp results.product_compositions sc.1) sc.2 with
      | some b2 =>
          simp only [List.mem_cons]
          constructor
          · intro h; exact absurd h (by simp)
          · intro h
            have : compare_components
                (dict_get_comp results.product_compositions sc.1) sc.2 = none :=
              (compare_components_eq_none _ _).mpr (h sc (Or.inl rfl))
            rw [hc] at this
            exact absurd this (by simp)
      | none =>
        simp only [ih, List.mem_cons]
        constructor
        · intro h sc2 hsc2
          rcases hsc2 with rfl | hsc2
          · exact (compare_components_eq_none _ _).mp hc
          · exact h sc2 hsc2
        · intro h sc2 hsc2
          exact h sc2 (Or.inr hsc2)

/-- C10: `compare_to_targets` never returns `True`: whenever some targeted
component differs from its target by more than 0.01 it returns `False`, and
on every other input (all targets met, including an empty targets
dictionary) it raises `NameError` because the returned name `Truex` is
undefined. -/
theorem compare_to_targets_never_true (results : AnalyzedResults) (targets : Targets) :
    (∀ b, compare_to_targets results targets = .ok b → b = false) ∧
    ((∃ sc ∈ targets.product_compositions, ∃ cv ∈ sc.2,
        |dict_get (dict_get_comp results.product_compositions sc.1) cv.1 0 - cv.2| >
          1/100) →
      compare_to_targets results targets = .ok false) ∧
    ((∀ sc ∈ targets.product_compositions, ∀ cv ∈ sc.2,
        |dict_get (dict_get_comp results.product_compositions sc.1) cv.1 0 - cv.2| ≤
          1/100) →
      compare_to_targets results targets =
        .error (.nameError "name Truex is not defined")) := by
  refine ⟨?_, ?_, ?_⟩
  · intro b h
    unfold compare_to_targets at h
    cases hc : compare_streams results targets.product_compositions with
    | some b2 =>
        rw [hc] at h
        simp only [Except.ok.injEq] at h
        subst h
        exact compare_streams_eq_some _ _ _ hc
    | none => rw [hc] at h; exact absurd h (by simp)
  · intro hex
    unfold compare_to_targets
    cases hc : compare_streams results targets.product_compositions with
    | some b2 =>
        have := compare_streams_eq_some _ _ _ hc
        subst this
        rfl
    | none =>
        obtain ⟨sc, hsc, cv, hcv, hgt⟩ := hex
        have := (compare_streams_eq_none results _).mp hc sc hsc cv hcv
        exact absurd this (not_le.mpr hgt)
  · intro hall
    unfold compare_to_targets
    rw [(compare_streams_eq_none results _).mpr hall]

/-- Witness for C10: a targeted component off by 1 returns `ok false`, and a
fully met (empty) target dictionary raises the `NameError`. -/
theorem compare_to_targets_never_true_witness :
    compare_to_targets
        { product_compositions := [("s1", [("A", 0)])] }
        { product_compositions := [("s1", [("A", 1)])] } = .ok false ∧
    compare_to_targets
        { product_compositions := [("s1", [("A", 0)])] }
        { product_compositions := [] } =
      .error (.nameError "name Truex is not defined") :=
  ⟨(compare_to_targets_never_true _ _).2.1
      ⟨("s1", [("A", 1)]), by simp, ("A", 1), by simp,
        by norm_num [dict_get, dict_get_comp]⟩,
   (compare_to_targets_never_true _ _).2.2 (by simp)⟩

/-! Step lemmas for the iteration loop. -/

theorem run_loop_zero (env : Nat → IterOutcome) (s : RunState) :
    run_loop env 0 s = (s, false) := rfl

theorem run_loop_succ (env : Nat → IterOutcome) (fuel : Nat) (s : RunState) :
    run_loop env (fuel + 1) s =
      if (process_iteration { s with current_iteration := s.current_iteration + 1 }
            (env (s.current_iteration + 1))).2 then
        ((process_iteration { s with current_iteration := s.current_iteration + 1 }
            (env (s.current_iteration + 1))).1, true)
      else
        run_loop env fuel
          (process_iteration { s with current_iteration := s.current_iteration + 1 }
            (env (s.current_iteration + 1))).1 := rfl

theorem process_iteration_history_len (s : RunState) (o : IterOutcome) :
    (process_iteration s o).1.history.length = s.history.length + 1 := by
  cases o with
  | convError msg => simp [process_iteration, record_iteration_results]
  | simError msg => simp [process_iteration, record_iteration_results]
  | evaluated c p =>
      unfold process_iteration
      dsimp only
      split <;> simp [record_iteration_results]

theorem process_iteration_found (s : RunState) (o : IterOutcome) :
    (process_iteration s o).2 = outcome_succeeds o := by
  cases o <;> rfl

theorem process_iteration_current (s : RunState) (o : IterOutcome) :
    (process_iteration s o).1.current_iteration = s.current_iteration := by
  cases o with
  | convError msg => rfl
  | simError msg => rfl
  | evaluated c p =>
      unfold process_iteration
      dsimp only
      split <;> rfl

/-- C2 (the code): with a budget of one iteration whose conversion fails, the
run ends with `best_design` absent and raises `TypeError` at the
budget-exhaustion log line that subscripts `self.best_design`, even though
`_generate_final_report` itself handles an absent best design by skipping
the report (`none`). -/
theorem run_exhausted_without_best_design_raises :
    run (fun _ => .convError "conversion failed") 1 =
      .error (.typeError "NoneType object is not subscriptable") ∧
    generate_final_report 1 none = none :=
  ⟨rfl, rfl⟩

/-- C6: a conversion or simulation failure leaves `best_score` and
`best_design` untouched, appends exactly one record carrying a feedback with
status `error` and no simulation results, does not stop the run, and the
loop proceeds directly to the next iteration of the remaining budget. -/
theorem error_iteration_short_circuit (s : RunState) (o : IterOutcome)
    (h : o.is_error = true) :
    (process_iteration s o).1.best_score = s.best_score ∧
    (process_iteration s o).1.best_design = s.best_design ∧
    (∃ fb, (process_iteration s o).1.history =
        s.history ++ [{ iteration := s.current_iteration, feedback := fb,
                        has_simulation_results := false }] ∧
      fb.status = "error") ∧
    (process_iteration s o).2 = false ∧
    (∀ env fuel, env (s.current_iteration + 1) = o →
      run_loop env (fuel + 1) s =
        run_loop env fuel
          (process_iteration { s with current_iteration := s.current_iteration + 1 }
            o).1) := by
  cases o with
  | convError msg =>
      refine ⟨rfl, rfl, ⟨conversion_error_feedback msg, rfl, rfl⟩, rfl, ?_⟩
      intro env fuel he
      rw [run_loop_succ, he]
      rfl
  | simError msg =>
      refine ⟨rfl, rfl, ⟨simulation_error_feedback msg, rfl, rfl⟩, rfl, ?_⟩
      intro env fuel he
      rw [run_loop_succ, he]
      rfl
  | evaluated c p => simp [IterOutcome.is_error] at h

/-- Witness for C6 at a concrete failing conversion on the initial state. -/
theorem error_iteration_short_circuit_witness :
    (process_iteration initial_state (.convError "bad design")).1.best_design = none ∧
    (process_iteration initial_state (.convError "bad design")).2 = false := by
  have h := error_iteration_short_circuit initial_state (.convError "bad design") rfl
  exact ⟨h.2.1.trans rfl, h.2.2.2.1⟩

theorem run_loop_no_success_len :
    ∀ (fuel : Nat) (env : Nat → IterOutcome) (s : RunState),
      (∀ j, s.current_iteration < j → j ≤ s.current_iteration + fuel →
          outcome_succeeds (env j) = false) →
      (run_loop env fuel s).1.history.length = s.history.length + fuel ∧
      (run_loop env fuel s).2 = false := by
  intro fuel
  induction fuel with
  | zero => intro env s _; simp [run_loop_zero]
  | succ n ih =>
      intro env s h
      rw [run_loop_succ]
      have hfound : (process_iteration
          { s with current_iteration := s.current_iteration + 1 }
          (env (s.current_iteration + 1))).2 = false := by
        rw [process_iteration_found]
        exact h (s.current_iteration + 1) (by omega) (by omega)
      rw [hfound]
      simp only [Bool.false_eq_true, if_false]
      set s2 := (process_iteration
          { s with current_iteration := s.current_iteration + 1 }
          (env (s.current_iteration + 1))).1 with hs2
      have hcur : s2.current_iteration = s.current_iteration + 1 := by
        rw [hs2, process_iteration_current]
      have hlen : s2.history.length = s.history.length + 1 := by
        rw [hs2, process_iteration_history_len]
      have hrec := ih env s2 (by
        intro j h1 h2
        rw [hcur] at h1 h2
        exact h j (by omega) (by omega))
      refine ⟨?_, hrec.2⟩
      rw [hrec.1, hlen]
      omega

theorem run_loop_success_len :
    ∀ (fuel : Nat) (env : Nat → IterOutcome) (s : RunState) (k : Nat),
      1 ≤ k → k ≤ fuel →
      (∀ j, 1 ≤ j → j < k → outcome_succeeds (env (s.current_iteration + j)) = false) →
      outcome_succeeds (env (s.current_iteration + k)) = true →
      (run_loop env fuel s).1.history.length = s.history.length + k ∧
      (run_loop env fuel s).2 = true := by
  intro fuel
  induction fuel with
  | zero => intro env s k hk1 hk2 _ _; omega
  | succ n ih =>
      intro env s k hk1 hk2 hbefore hat
      rw [run_loop_succ]
      rcases k with _ | k2
      · omega
      rcases Nat.eq_zero_or_pos k2 with hz | hpos
      · subst hz
        have hfound : (process_iteration
            { s with current_iteration := s.current_iteration + 1 }
            (env (s.current_iteration + 1))).2 = true := by
          rw [process_iteration_found]
          exact hat
        rw [hfound]
        simp only [if_true]
        exact ⟨process_iteration_history_len _ _, by trivial⟩
      · have hfound : (process_iteration
            { s with current_iteration := s.current_iteration + 1 }
            (env (s.current_iteration + 1))).2 = false := by
          rw [process_iteration_found]
          exact hbefore 1 le_rfl (by omega)
        rw [hfound]
        simp only [Bool.false_eq_true, if_false]
        set s2 := (process_iteration
            { s with current_iteration := s.current_iteration + 1 }
            (env (s.current_iteration + 1))).1 with hs2
        have hcur : s2.current_iteration = s.current_iteration + 1 := by
          rw [hs2, process_iteration_current]
        have hlen : s2.history.length = s.history.length + 1 := by
          rw [hs2, process_iteration_history_len]
        have hrec := ih env s2 k2 hpos (by omega)
          (by
            intro j hj1 hj2
            have harg : s2.current_iteration + j = s.current_iteration + (j + 1) := by
              rw [hcur]; omega
            rw [harg]
            exact hbefore (j + 1) (by omega) (by omega))
          (by
            have harg : s2.current_iteration + k2 = s.current_iteration + (k2 + 1) := by
              rw [hcur]; omega
            rw [harg]
            exact hat)
        refine ⟨?_, hrec.2⟩
        rw [hrec.1, hlen]
        omega

/-- C9: every iteration body, including those that fail in conversion or
simulation, appends exactly one record to the history; a run of N iterations
none of which succeeds leaves a history of length N and returns no success,
while a run whose first successful iteration is k ≤ N stops there with a
history of length k. -/
theorem history_length_invariant (env : Nat → IterOutcome) (N : Nat) :
    (∀ (s : RunState) (o : IterOutcome),
        (process_iteration s o).1.history.length = s.history.length + 1) ∧
    ((∀ k, 1 ≤ k → k ≤ N → outcome_succeeds (env k) = false) →
      (run_loop env N initial_state).1.history.length = N ∧
      (run_loop env N initial_state).2 = false) ∧
    (∀ k, 1 ≤ k → k ≤ N →
      (∀ j, 1 ≤ j → j < k → outcome_succeeds (env j) = false) →
      outcome_succeeds (env k) = true →
      (run_loop env N initial_state).1.history.length = k ∧
      (run_loop env N initial_state).2 = true) := by
  refine ⟨process_iteration_history_len, ?_, ?_⟩
  · intro h
    have := run_loop_no_success_len N env initial_state (by
      intro j h1 h2
      simp only [initial_state] at h1 h2
      exact h j (by omega) (by omega))
    simpa [initial_state] using this
  · intro k hk1 hk2 hbefore hat
    have := run_loop_success_len N env initial_state k hk1 hk2
      (by
        intro j hj1 hj2
        simpa [initial_state] using hbefore j hj1 hj2)
      (by simpa [initial_state] using hat)
    simpa [initial_state] using this

/-- Witness for C9: three failing iterations leave a history of length 3. -/
theorem history_length_invariant_witness :
    (run_loop (fun _ => .convError "conversion failed") 3 initial_state).1.history.length = 3 ∧
    (run_loop (fun _ => .convError "conversion failed") 3 initial_state).2 = false :=
  (history_length_invariant (fun _ => .convError "conversion failed") 3).2.1
    (by intro k _ _; rfl)

/-! Lemmas for best-design tracking. -/

theorem score_le_refl (a : Option ℚ) : score_le a a := by
  cases a <;> simp [score_le]

theorem score_le_trans {a b c : Option ℚ} (h1 : score_le a b) (h2 : score_le b c) :
    score_le a c := by
  cases a <;> cases b <;> cases c <;> simp [score_le] at h1 h2 ⊢
  · exact le_trans h1 h2

theorem process_iteration_score_mono (s : RunState) (o : IterOutcome) :
    score_le s.best_score (process_iteration s o).1.best_score := by
  cases o with
  | convError msg => exact score_le_refl _
  | simError msg => exact score_le_refl _
  | evaluated c p =>
      unfold process_iteration
      dsimp only
      split
      case isTrue h =>
        cases hbs : s.best_score with
        | none => simp [record_iteration_results, score_le]
        | some b =>
            rw [hbs] at h
            simp only [gt_best_score, decide_eq_true_eq] at h
            simp [record_iteration_results, score_le]
            exact le_of_lt h
      case isFalse h => exact score_le_refl _

theorem run_loop_score_mono :
    ∀ (fuel : Nat) (env : Nat → IterOutcome) (s : RunState),
      score_le s.best_score (run_loop env fuel s).1.best_score := by
  intro fuel
  induction fuel with
  | zero => intro env s; exact score_le_refl _
  | succ n ih =>
      intro env s
      rw [run_loop_succ]
      have hstep := process_iteration_score_mono
        { s with current_iteration := s.current_iteration + 1 }
        (env (s.current_iteration + 1))
      split
      · exact hstep
      · exact score_le_trans hstep (ih env _)

theorem process_iteration_no_update (s : RunState) (c : ConstraintResult)
    (p : ProductEvaluation)
    (h : gt_best_score (calculate_design_score c p) s.best_score = false) :
    (process_iteration s (.evaluated c p)).1.best_design = s.best_design := by
  unfold process_iteration
  dsimp only
  rw [h]
  simp [record_iteration_results]

theorem process_iteration_coherent (s : RunState) (o : IterOutcome)
    (h : coherent s) : coherent (process_iteration s o).1 := by
  cases o with
  | convError msg => exact h
  | simError msg => exact h
  | evaluated c p =>
      unfold process_iteration
      dsimp only
      split
      · simp [record_iteration_results, coherent]
      · exact h

theorem process_iteration_best_pair (s : RunState) (c : ConstraintResult)
    (p : ProductEvaluation) (h : coherent s) :
    best_pair (process_iteration s (.evaluated c p)).1 =
      update_best (best_pair s) (s.current_iteration, calculate_design_score c p) := by
  unfold process_iteration update_best
  dsimp only
  have hmap : (best_pair s).map (fun b => b.2) = s.best_score := by
    rw [h]
    simp [best_pair, Option.map_map]
    rfl
  rw [hmap]
  split
  · simp [best_pair, record_iteration_results]
  · simp [best_pair, record_iteration_results]

theorem run_loop_best_pair :
    ∀ (fuel : Nat) (env : Nat → IterOutcome) (s : RunState), coherent s →
      best_pair (run_loop env fuel s).1 =
        (scored_iterations env s.current_iteration fuel).foldl update_best
          (best_pair s) ∧
      coherent (run_loop env fuel s).1 := by
  intro fuel
  induction fuel with
  | zero =>
      intro env s h
      exact ⟨by simp [run_loop_zero, scored_iterations], h⟩
  | succ n ih =>
      intro env s h
      rw [run_loop_succ]
      have hcohs1 : coherent { s with current_iteration := s.current_iteration + 1 } := h
      cases ho : env (s.current_iteration + 1) with
      | convError msg =>
          simp only [scored_iterations, ho]
          have hrec := ih env (process_iteration
              { s with current_iteration := s.current_iteration + 1 }
              (.convError msg)).1 hcohs1
          simpa [process_iteration, record_iteration_results, best_pair] using hrec
      | simError msg =>
          simp only [scored_iterations, ho]
          have hrec := ih env (process_iteration
              { s with current_iteration := s.current_iteration + 1 }
              (.simError msg)).1 hcohs1
          simpa [process_iteration, record_iteration_results, best_pair] using hrec
      | evaluated c p =>
          simp only [scored_iterations, ho]
          have hbp := process_iteration_best_pair
            { s with current_iteration := s.current_iteration + 1 } c p hcohs1
          have hcoh2 := process_iteration_coherent
            { s with current_iteration := s.current_iteration + 1 }
            (.evaluated c p) hcohs1
          cases hsucc : ((generate_feedback c p).status == "success") with
          | true =>
              have hfound : (process_iteration
                  { s with current_iteration := s.current_iteration + 1 }
                  (.evaluated c p)).2 = true := by
                rw [process_iteration_found]
                simpa [outcome_succeeds] using hsucc
              rw [hfound]
              simp only [if_true, hsucc]
              exact ⟨by simpa using hbp, hcoh2⟩
          | false =>
              have hfound : (process_iteration
                  { s with current_iteration := s.current_iteration + 1 }
                  (.evaluated c p)).2 = false := by
                rw [process_iteration_found]
                simpa [outcome_succeeds] using hsucc
              rw [hfound]
              simp only [Bool.false_eq_true, if_false, hsucc]
              have hcur : (process_iteration
                  { s with current_iteration := s.current_iteration + 1 }
                  (.evaluated c p)).1.current_iteration = s.current_iteration + 1 :=
                process_iteration_current _ _
              have hrec := ih env (process_iteration
                  { s with current_iteration := s.current_iteration + 1 }
                  (.evaluated c p)).1 hcoh2
              rw [hcur, hbp] at hrec
              simpa [List.foldl_cons] using hrec

theorem is_best_of_ne_nil {l : List (Nat × ℚ)} {b : Option (Nat × ℚ)}
    (h : is_best_of l b) (hne : l ≠ []) : ∃ x, b = some x := by
  cases b with
  | none => exact absurd h hne
  | some x => exact ⟨x, rfl⟩

theorem is_best_of_cons_lt {e f : Nat × ℚ} {t : List (Nat × ℚ)} {b : Nat × ℚ}
    (h : is_best_of (f :: t) (some b)) (hef : e.2 < f.2) :
    is_best_of (e :: f :: t) (some b) := by
  obtain ⟨hmem, hub, htie⟩ := h
  have hfb : f.2 ≤ b.2 := hub f (List.mem_cons_self _ _)
  refine ⟨List.mem_cons_of_mem _ hmem, ?_, ?_⟩
  · intro x hx
    rcases List.mem_cons.mp hx with rfl | hx2
    · exact le_of_lt (lt_of_lt_of_le hef hfb)
    · exact hub x hx2
  · intro x hx hxb
    rcases List.mem_cons.mp hx with rfl | hx2
    · exact absurd hxb (ne_of_lt (lt_of_lt_of_le hef hfb))
    · exact htie x hx2 hxb

theorem is_best_of_cons_skip {e f : Nat × ℚ} {t : List (Nat × ℚ)} {b : Nat × ℚ}
    (h : is_best_of (e :: t) (some b)) (hfe : f.2 ≤ e.2) (hef : e.1 < f.1) :
    is_best_of (e :: f :: t) (some b) := by
  obtain ⟨hmem, hub, htie⟩ := h
  have heb : e.2 ≤ b.2 := hub e (List.mem_cons_self _ _)
  refine ⟨?_, ?_, ?_⟩
  · rcases List.mem_cons.mp hmem with rfl | hmem2
    · exact List.mem_cons_self _ _
    · exact List.mem_cons_of_mem _ (List.mem_cons_of_mem _ hmem2)
  · intro x hx
    rcases List.mem_cons.mp hx with rfl | hx2
    · exact heb
    rcases List.mem_cons.mp hx2 with rfl | hx3
    · exact le_trans hfe heb
    · exact hub x (List.mem_cons_of_mem _ hx3)
  · intro x hx hxb
    rcases List.mem_cons.mp hx with rfl | hx2
    · exact htie x (List.mem_cons_self _ _) hxb
    rcases List.mem_cons.mp hx2 with rfl | hx3
    · have he2 : e.2 = b.2 := le_antisymm heb (hxb ▸ hfe)
      have hb1 : b.1 ≤ e.1 := htie e (List.mem_cons_self _ _) he2
      exact le_of_lt (lt_of_le_of_lt hb1 hef)
    · exact htie x (List.mem_cons_of_mem _ hx3) hxb

theorem foldl_update_best_is_best :
    ∀ (t : List (Nat × ℚ)) (e : Nat × ℚ),
      (∀ x ∈ t, e.1 < x.1) → List.Pairwise (fun a b => a.1 < b.1) t →
      is_best_of (e :: t) (t.foldl update_best (some e)) := by
  intro t
  induction t with
  | nil =>
      intro e _ _
      refine ⟨List.mem_cons_self _ _, ?_, ?_⟩
      · intro x hx
        rcases List.mem_cons.mp hx with rfl | hx2
        · exact le_rfl
        · exact absurd hx2 (List.not_mem_nil x)
      · intro x hx _
        rcases List.mem_cons.mp hx with rfl | hx2
        · exact le_rfl
        · exact absurd hx2 (List.not_mem_nil x)
  | cons f t2 ih =>
      intro e he hp
      rw [List.foldl_cons]
      have hef : e.1 < f.1 := he f (List.mem_cons_self _ _)
      have ht : ∀ x ∈ t2, f.1 < x.1 := (List.pairwise_cons.mp hp).1
      have htp : List.Pairwise (fun a b => a.1 < b.1) t2 := (List.pairwise_cons.mp hp).2
      by_cases hgt : f.2 > e.2
      · have hub : update_best (some e) f = some f := by
          simp [update_best, gt_best_score, hgt]
        rw [hub]
        have hib := ih f ht htp
        obtain ⟨b, hb⟩ := is_best_of_ne_nil hib (by simp)
        rw [hb] at hib ⊢
        exact is_best_of_cons_lt hib hgt
      · have hub : update_best (some e) f = some e := by
          simp [update_best, gt_best_score, hgt]
        rw [hub]
        have hib := ih e (fun x hx => lt_trans hef (ht x hx)) htp
        obtain ⟨b, hb⟩ := is_best_of_ne_nil hib (by simp)
        rw [hb] at hib ⊢
        exact is_best_of_cons_skip hib (not_lt.mp hgt) hef

theorem foldl_update_best_none {l : List (Nat × ℚ)} (hne : l ≠ [])
    (hp : List.Pairwise (fun a b => a.1 < b.1) l) :
    is_best_of l (l.foldl update_best none) := by
  cases l with
  | nil => exact absurd rfl hne
  | cons e t =>
      rw [List.foldl_cons]
      have h1 : update_best none e = some e := by
        simp [update_best, gt_best_score]
      rw [h1]
      exact foldl_update_best_is_best t e (List.pairwise_cons.mp hp).1
        (List.pairwise_cons.mp hp).2

theorem scored_iterations_lt :
    ∀ (fuel : Nat) (env : Nat → IterOutcome) (start : Nat) (x : Nat × ℚ),
      x ∈ scored_iterations env start fuel → start < x.1 := by
  intro fuel
  induction fuel with
  | zero => intro env start x hx; simp [scored_iterations] at hx
  | succ n ih =>
      intro env start x hx
      rw [scored_iterations] at hx
      cases ho : env (start + 1) with
      | convError msg =>
          rw [ho] at hx
          exact lt_trans (by omega) (ih env (start + 1) x hx)
      | simError msg =>
          rw [ho] at hx
          exact lt_trans (by omega) (ih env (start + 1) x hx)
      | evaluated c p =>
          rw [ho] at hx
          rcases List.mem_cons.mp hx with rfl | hx2
          · omega
          · split at hx2
            · exact absurd hx2 (List.not_mem_nil x)
            · exact lt_trans (by omega) (ih env (start + 1) x hx2)

theorem scored_iterations_pairwise :
    ∀ (fuel : Nat) (env : Nat → IterOutcome) (start : Nat),
      List.Pairwise (fun a b => a.1 < b.1) (scored_iterations env start fuel) := by
  intro fuel
  induction fuel with
  | zero => intro env start; simp [scored_iterations]
  | succ n ih =>
      intro env start
      rw [scored_iterations]
      cases ho : env (start + 1) with
      | convError msg => exact ih env (start + 1)
      | simError msg => exact ih env (start + 1)
      | evaluated c p =>
          refine List.pairwise_cons.mpr ⟨?_, ?_⟩
          · intro x hx
            split at hx
            · exact absurd hx (List.not_mem_nil x)
            · exact scored_iterations_lt n env (start + 1) x hx
          · split
            · exact List.Pairwise.nil
            · exact ih env (start + 1)

/-- C5 (spec-modelled evaluator outcomes): the tracked best score never
decreases along the run; the best design is replaced only when a strictly
higher score is observed; and when at least one iteration was scored, the
final best design is one of the scored iterations, its score is the maximum
of all iteration scores, and among the iterations achieving that maximum it
is the earliest. -/
theorem best_design_tracking (env : Nat → IterOutcome) (N : Nat) :
    (∀ (s : RunState) (fuel : Nat),
        score_le s.best_score (run_loop env fuel s).1.best_score) ∧
    (∀ (s : RunState) (c : ConstraintResult) (p : ProductEvaluation),
        gt_best_score (calculate_design_score c p) s.best_score = false →
        (process_iteration s (.evaluated c p)).1.best_design = s.best_design) ∧
    (scored_iterations env 0 N ≠ [] →
      ∃ best, best_pair (run_loop env N initial_state).1 = some best ∧
        best ∈ scored_iterations env 0 N ∧
        (∀ e ∈ scored_iterations env 0 N, e.2 ≤ best.2) ∧
        (∀ e ∈ scored_iterations env 0 N, e.2 = best.2 → best.1 ≤ e.1)) := by
  refine ⟨fun s fuel => run_loop_score_mono fuel env s,
    fun s c p h => process_iteration_no_update s c p h, ?_⟩
  intro hne
  have hcoh : coherent initial_state := rfl
  have hbp := (run_loop_best_pair N env initial_state hcoh).1
  have hbp2 : best_pair (run_loop env N initial_state).1 =
      (scored_iterations env 0 N).foldl update_best none := by
    simpa [initial_state, best_pair] using hbp
  have hib := foldl_update_best_none hne (scored_iterations_pairwise N env 0)
  rw [← hbp2] at hib
  obtain ⟨best, hbest⟩ := is_best_of_ne_nil hib hne
  rw [hbest] at hib
  obtain ⟨h1, h2, h3⟩ := hib
  exact ⟨best, hbest, h1, h2, h3⟩

/-- Witness for C5: two evaluated iterations with equal scores; the earliest
one (iteration 1) is kept as the best. -/
theorem best_design_tracking_witness :
    ∃ best,
      best_pair (run_loop
          (fun _ => IterOutcome.evaluated
            { mass_balance_satisfied := false, mass_balance_error := 10,
              energy_balance_satisfied := true, energy_balance_error := 0 }
            { all_specifications_met := false, issues := [], product_scores := [] })
          2 initial_state).1 = some best ∧
      best ∈ scored_iterations
          (fun _ => IterOutcome.evaluated
            { mass_balance_satisfied := false, mass_balance_error := 10,
              energy_balance_satisfied := true, energy_balance_error := 0 }
            { all_specifications_met := false, issues := [], product_scores := [] })
          0 2 ∧
      (∀ e ∈ scored_iterations
          (fun _ => IterOutcome.evaluated
            { mass_balance_satisfied := false, mass_balance_error := 10,
              energy_balance_satisfied := true, energy_balance_error := 0 }
            { all_specifications_met := false, issues := [], product_scores := [] })
          0 2, e.2 ≤ best.2) ∧
      (∀ e ∈ scored_iterations
          (fun _ => IterOutcome.evaluated
            { mass_balance_satisfied := false, mass_balance_error := 10,
              energy_balance_satisfied := true, energy_balance_error := 0 }
            { all_specifications_met := false, issues := [], product_scores := [] })
          0 2, e.2 = best.2 → best.1 ≤ e.1) :=
  (best_design_tracking _ 2).2.2 (by
    rw [scored_iterations]
    simp)

end DWSimAgent
